import Mathlib

/-!
Shallow embedding of the course-recommendation core of the
Personalized-Learning-path-Recommender repository, together with proofs
about its behaviour.

Conventions of the embedding:
* Python floats are modelled as rationals (`ℚ`); the arithmetic the code
  performs (division of small counts, comparisons against fixed
  thresholds, addition of two scores) is exact, so `ℚ` is a faithful
  model.
* Python dictionaries with a fixed set of relevant keys are modelled as
  structures whose fields are `Option`-valued where the code uses
  `dict.get` with a default (a `none` field models an absent key).
* Python `str.lower` is character-wise lowering; the substring test
  `kw in text` is infix containment of the character lists.

Sources embedded (file, function):
* services/cross_domain_service.py: `infer_domain`,
  `calculate_skill_overlap`, `get_cross_domain_courses`,
  `_generate_explanation`, the `DOMAIN_KEYWORDS` table.
* backend/services/learning_path_service.py: `build_learning_path`,
  `DIFFICULTY_ORDER`, `DIFFICULTY_LABELS`.
* backend/learner_profile_service.py: `engineer_features`,
  `classify_profile`, `predict_outcome`, `_calculate_risk_level`,
  `get_student_embedding`, `_generate_recommendations`, `analyze_student`.
* backend/main.py: the loop of `batch_analyze_students`, including the
  `StudentAnalysis(**analysis)` pydantic validation step.
-/

/-! ## Skill-set math: `calculate_skill_overlap` (cross_domain_service.py) -/

/-- Python `s.lower()`: character-wise lowering. -/
def pyLower (s : String) : String :=
  String.mk (s.toList.map Char.toLower)

/-- Python `kw in text` on strings: substring containment. -/
def strContains (text kw : String) : Bool :=
  decide (kw.toList <:+: text.toList)

/-- The Python set `set(s.lower() for s in skills)` rendered as a nodup
list (lowercased, deduplicated). -/
def normSkills (skills : List String) : List String :=
  (skills.map pyLower).dedup

/-- Embedding of `CrossDomainService.calculate_skill_overlap`:
empty-input guard, lowercased sets, `|A∩B| / |A∪B|`, with the
(unreachable) `union == 0` guard kept from the source. -/
def calculate_skill_overlap (skills1 skills2 : List String) : ℚ :=
  if skills1 = [] ∨ skills2 = [] then 0
  else if ((normSkills skills1 ++ normSkills skills2).dedup).length = 0 then 0
  else (((normSkills skills1).filter (fun s => s ∈ normSkills skills2)).length : ℚ)
      / (((normSkills skills1 ++ normSkills skills2).dedup).length : ℚ)

/-- The Jaccard index on the case-insensitively normalised finite sets of
skills, written with `Finset` operations, following the spec's words. -/
def jaccardSpec (skills1 skills2 : List String) : ℚ :=
  (((skills1.map pyLower).toFinset ∩ (skills2.map pyLower).toFinset).card : ℚ)
    / (((skills1.map pyLower).toFinset ∪ (skills2.map pyLower).toFinset).card : ℚ)

theorem toFinset_dedup_eq {α : Type _} [DecidableEq α] (l : List α) :
    l.dedup.toFinset = l.toFinset :=
  List.toFinset.ext fun _ => List.mem_dedup

theorem normSkills_toFinset (skills : List String) :
    (normSkills skills).toFinset = (skills.map pyLower).toFinset :=
  toFinset_dedup_eq _

theorem overlap_inter_card (A B : List String) :
    ((normSkills A).filter (fun s => s ∈ normSkills B)).length
      = ((A.map pyLower).toFinset ∩ (B.map pyLower).toFinset).card := by
  have hnd : ((normSkills A).filter (fun s => s ∈ normSkills B)).Nodup :=
    (List.nodup_dedup _).filter _
  rw [← List.toFinset_card_of_nodup hnd]
  congr 1
  ext x
  simp [List.mem_filter, normSkills]

theorem overlap_union_card (A B : List String) :
    ((normSkills A ++ normSkills B).dedup).length
      = ((A.map pyLower).toFinset ∪ (B.map pyLower).toFinset).card := by
  rw [← List.toFinset_card_of_nodup (List.nodup_dedup _)]
  congr 1
  rw [toFinset_dedup_eq, List.toFinset_append, normSkills_toFinset, normSkills_toFinset]

theorem overlap_union_card_pos (A B : List String) (hA : A ≠ []) :
    0 < ((normSkills A ++ normSkills B).dedup).length := by
  match A, hA with
  | a :: A', _ =>
    have : pyLower a ∈ (normSkills (a :: A') ++ normSkills B).dedup := by
      rw [List.mem_dedup, List.mem_append, normSkills, List.mem_dedup]
      exact Or.inl (List.mem_map_of_mem pyLower (List.mem_cons_self a A'))
    exact List.length_pos.mpr (List.ne_nil_of_mem this)

/-- C6: for all skill lists A and B, `calculate_skill_overlap` returns 0
when either input is empty, and otherwise returns `|A∩B| / |A∪B|` on the
case-insensitively normalised (lowercased, deduplicated) sets, a value in
[0,1]; in particular `calculate_skill_overlap ["Python","SQL"]
["python","R"] = 1/3`. -/
theorem skill_overlap_jaccard (A B : List String) :
    (A = [] ∨ B = [] → calculate_skill_overlap A B = 0)
    ∧ (A ≠ [] → B ≠ [] → calculate_skill_overlap A B = jaccardSpec A B)
    ∧ (0 ≤ calculate_skill_overlap A B ∧ calculate_skill_overlap A B ≤ 1)
    ∧ calculate_skill_overlap ["Python", "SQL"] ["python", "R"] = 1/3 := by
  have hmain : ∀ (X Y : List String), X ≠ [] → Y ≠ [] →
      calculate_skill_overlap X Y = jaccardSpec X Y := by
    intro X Y hX hY
    have hu := overlap_union_card_pos X Y hX
    unfold calculate_skill_overlap jaccardSpec
    rw [if_neg (by simp [hX, hY]), if_neg (by omega),
      overlap_inter_card, overlap_union_card]
  refine ⟨fun h => by unfold calculate_skill_overlap; rw [if_pos h], hmain A B, ?_, ?_⟩
  · by_cases hA : A = []
    · unfold calculate_skill_overlap
      rw [if_pos (Or.inl hA)]
      norm_num
    · by_cases hB : B = []
      · unfold calculate_skill_overlap
        rw [if_pos (Or.inr hB)]
        norm_num
      · rw [hmain A B hA hB]
        unfold jaccardSpec
        have hu := overlap_union_card_pos A B hA
        rw [overlap_union_card] at hu
        have hcard : ((A.map pyLower).toFinset ∩ (B.map pyLower).toFinset).card
            ≤ ((A.map pyLower).toFinset ∪ (B.map pyLower).toFinset).card :=
          Finset.card_le_card Finset.inter_subset_union
        constructor
        · positivity
        · rw [div_le_one (by exact_mod_cast hu)]
          exact_mod_cast hcard
  · have h1 : ((normSkills ["Python", "SQL"]).filter
        (fun s => s ∈ normSkills ["python", "R"])).length = 1 := by decide
    have h2 : ((normSkills ["Python", "SQL"] ++ normSkills ["python", "R"]).dedup).length = 3 := by
      decide
    unfold calculate_skill_overlap
    rw [if_neg (by simp), if_neg (by omega), h1, h2]
    norm_num

/-- Witness for C6 at concrete inputs. -/
theorem skill_overlap_jaccard_witness :
    calculate_skill_overlap [] ["a"] = 0
    ∧ calculate_skill_overlap ["Python", "SQL"] ["python", "R"]
        = jaccardSpec ["Python", "SQL"] ["python", "R"] :=
  ⟨(skill_overlap_jaccard [] ["a"]).1 (Or.inl rfl),
   (skill_overlap_jaccard ["Python", "SQL"] ["python", "R"]).2.1
     (by decide) (by decide)⟩

/-! ## Domain inference: `infer_domain` (cross_domain_service.py) -/

/-- The `DOMAIN_KEYWORDS` class attribute, in its source order. -/
def DOMAIN_KEYWORDS : List (String × List String) :=
  [("Computer Science",
    ["programming", "python", "java", "javascript", "software", "algorithm",
     "data structure", "web development", "machine learning", "ai", "database",
     "sql", "cloud computing", "devops", "linux", "coding", "computer"]),
   ("Business",
    ["business", "management", "marketing", "finance", "accounting", "leadership",
     "strategy", "entrepreneurship", "operations", "economics", "MBA", "sales",
     "business plan", "financial analysis", "project management"]),
   ("Data Science",
    ["data science", "data analysis", "statistics", "analytics", "big data",
     "visualization", "tableau", "r programming", "pandas", "numpy", "data mining",
     "predictive modeling", "statistical analysis"]),
   ("Engineering",
    ["engineering", "mechanical", "electrical", "civil", "chemical", "physics",
     "circuits", "thermodynamics", "materials", "systems", "design", "CAD"]),
   ("Mathematics",
    ["mathematics", "calculus", "algebra", "linear algebra", "probability",
     "mathematical", "theorem", "geometry", "trigonometry", "discrete math"]),
   ("Arts & Humanities",
    ["art", "music", "literature", "writing", "philosophy", "history",
     "creative", "design", "film", "media", "communication", "humanities"]),
   ("Health & Medicine",
    ["health", "medicine", "medical", "healthcare", "nursing", "biology",
     "anatomy", "clinical", "public health", "epidemiology", "patient"]),
   ("Social Sciences",
    ["psychology", "sociology", "anthropology", "political science", "economics",
     "social", "behavioral", "research methods", "survey"])]

/-- A course dictionary, with the keys the embedded services read.
`Option`-valued fields model `dict.get` defaults for possibly-absent
keys. -/
structure Course where
  id : Option String := none
  name : Option String := none
  description : Option String := none
  url : Option String := none
  rating : Option ℚ := none
  difficulty : Option String := none
  skills : List String := []
  similarity_score : Option ℚ := none
deriving DecidableEq

/-- The lowercased text blob `infer_domain` analyses: skills, description
and name joined by spaces. -/
def courseText (c : Course) : String :=
  pyLower (String.intercalate " "
    [String.intercalate " " c.skills, c.description.getD "", c.name.getD ""])

/-- `sum(1 for keyword in keywords if keyword in text)`. -/
def domainScore (keywords : List String) (text : String) : Nat :=
  keywords.countP (fun kw => strContains text kw)

/-- The association list of per-domain keyword counts for a course, in
the registration order of `DOMAIN_KEYWORDS`. -/
def domainScores (c : Course) : List (String × Nat) :=
  DOMAIN_KEYWORDS.map (fun p => (p.1, domainScore p.2 (courseText c)))

/-- Python `max(iterable, key=get)`: scan keeping the current best,
replacing it only on a strictly larger value (first maximum wins). -/
def pickMax (b : String × Nat) (l : List (String × Nat)) : String × Nat :=
  l.foldl (fun best q => if best.2 < q.2 then q else best) b

/-- Embedding of `CrossDomainService.infer_domain`: per-domain keyword
counts, the positive ones kept in registration order, then Python
`max(domain_scores, key=domain_scores.get)`. -/
def inferDomain (c : Course) : String :=
  match (domainScores c).filter (fun p => 0 < p.2) with
  | [] => "Other"
  | p :: ps => (pickMax p ps).1

/-- The maximum keyword count in a score list (0 on the empty list). -/
def maxScoreVal (l : List (String × Nat)) : Nat :=
  l.foldr (fun p m => max p.2 m) 0

/-- Domain selection as the spec words it: the first-registered domain
whose keyword count equals the (positive) maximum, `Other` when no
domain's count is positive. -/
def inferDomainSpec (c : Course) : String :=
  if maxScoreVal (domainScores c) = 0 then "Other"
  else
    match (domainScores c).find? (fun p => p.2 == maxScoreVal (domainScores c)) with
    | some p => p.1
    | none => "Other"

theorem maxScoreVal_nil : maxScoreVal [] = 0 := rfl

theorem maxScoreVal_cons (p : String × Nat) (l : List (String × Nat)) :
    maxScoreVal (p :: l) = max p.2 (maxScoreVal l) := rfl

theorem pickMax_cons (b q : String × Nat) (l : List (String × Nat)) :
    pickMax b (q :: l) = pickMax (if b.2 < q.2 then q else b) l := rfl

theorem pickMax_of_le (l : List (String × Nat)) (b : String × Nat)
    (h : maxScoreVal l ≤ b.2) : pickMax b l = b := by
  induction l generalizing b with
  | nil => rfl
  | cons q l ih =>
    rw [maxScoreVal_cons] at h
    rw [pickMax_cons, if_neg (by omega)]
    exact ih b (by omega)

theorem pickMax_find (l : List (String × Nat)) (m : Nat) (b : String × Nat)
    (hm : maxScoreVal l = m) (h : b.2 < m) :
    ∃ q, l.find? (fun p => p.2 == m) = some q ∧ pickMax b l = q := by
  induction l generalizing b with
  | nil => rw [maxScoreVal_nil] at hm; omega
  | cons p l ih =>
    rw [maxScoreVal_cons] at hm
    by_cases hp : p.2 = m
    · refine ⟨p, by simp [List.find?_cons, hp], ?_⟩
      rw [pickMax_cons, if_pos (by omega)]
      exact pickMax_of_le l p (by omega)
    · have hpm : p.2 < m := by omega
      have hlm : maxScoreVal l = m := by omega
      rw [List.find?_cons_of_neg _ (by simpa using hp), pickMax_cons]
      split
      · exact ih p hlm (by omega)
      · exact ih b hlm h

theorem maxScoreVal_eq_zero_iff (l : List (String × Nat)) :
    maxScoreVal l = 0 ↔ l.filter (fun p => 0 < p.2) = [] := by
  induction l with
  | nil => simp [maxScoreVal_nil]
  | cons p l ih =>
    rw [maxScoreVal_cons, List.filter_cons]
    constructor
    · intro h
      rw [if_neg (by simp; omega)]
      exact ih.mp (by omega)
    · intro h
      split at h
      · simp at h
      · rename_i hc
        have hp : ¬ (0 < p.2) := by simpa using hc
        have h0 := ih.mpr h
        omega

theorem maxScoreVal_filter (l : List (String × Nat)) :
    maxScoreVal (l.filter (fun p => 0 < p.2)) = maxScoreVal l := by
  induction l with
  | nil => rfl
  | cons p l ih =>
    rw [List.filter_cons]
    split
    · rw [maxScoreVal_cons, maxScoreVal_cons, ih]
    · have hp : p.2 = 0 := by
        rename_i hc
        simp at hc
        omega
      rw [maxScoreVal_cons, ih]
      omega

theorem find?_filter_pos (l : List (String × Nat)) (m : Nat) (hm : 0 < m) :
    (l.filter (fun p => 0 < p.2)).find? (fun p => p.2 == m)
      = l.find? (fun p => p.2 == m) := by
  induction l with
  | nil => rfl
  | cons p l ih =>
    rw [List.filter_cons]
    by_cases hp : p.2 = m
    · rw [if_pos (by simp; omega), List.find?_cons_of_pos _ (by simpa using hp),
        List.find?_cons_of_pos _ (by simpa using hp)]
    · rw [List.find?_cons_of_neg _ (by simpa using hp)]
      split
      · rw [List.find?_cons_of_neg _ (by simpa using hp)]
        exact ih
      · exact ih

/-- C2: for every course, `infer_domain` returns the first-registered
domain whose keyword-count over the lowercased skills/description/name
blob is maximal, `Other` when no domain has a positive count; the
function is total. Stated as equality with the spec-worded selection
`inferDomainSpec`. -/
theorem infer_domain_first_max (c : Course) :
    inferDomain c = inferDomainSpec c := by
  unfold inferDomain inferDomainSpec
  by_cases h0 : maxScoreVal (domainScores c) = 0
  · rw [if_pos h0, (maxScoreVal_eq_zero_iff _).mp h0]
  · rw [if_neg h0]
    have hm0 : 0 < maxScoreVal (domainScores c) := Nat.pos_of_ne_zero h0
    rw [← find?_filter_pos _ _ hm0]
    cases hfl : (domainScores c).filter (fun p => 0 < p.2) with
    | nil => exact absurd ((maxScoreVal_eq_zero_iff _).mpr hfl) h0
    | cons p ps =>
      have hmf : max p.2 (maxScoreVal ps) = maxScoreVal (domainScores c) := by
        rw [← maxScoreVal_cons, ← hfl, maxScoreVal_filter]
      by_cases hp : p.2 = maxScoreVal (domainScores c)
      · rw [List.find?_cons_of_pos _ (by simpa using hp)]
        show (pickMax p ps).1 = p.1
        rw [pickMax_of_le ps p (by omega)]
      · have hps : maxScoreVal ps = maxScoreVal (domainScores c) := by omega
        obtain ⟨q, hq1, hq2⟩ := pickMax_find ps _ p hps (by omega)
        rw [List.find?_cons_of_neg _ (by simpa using hp), hq1]
        show (pickMax p ps).1 = q.1
        rw [hq2]

/-! ## Cross-domain matching: `get_cross_domain_courses`
(cross_domain_service.py) -/

/-- The record `get_cross_domain_courses` builds for a kept candidate. -/
structure CrossDomainRec where
  course : Option String
  id : Option String
  url : Option String
  domain : String
  rating : Option ℚ
  difficulty : Option String
  similarity_score : ℚ
  skill_overlap : ℚ
  reason : String
deriving DecidableEq

/-- Embedding of `CrossDomainService._generate_explanation`. -/
def generate_explanation (course_domain primary_domain : String)
    (similarity skill_overlap : ℚ)
    (course_skills core_skills : List String) : String :=
  let shared_skills := (course_skills.map pyLower).filter (fun s => s ∈ core_skills)
  if 3/10 < skill_overlap ∧ shared_skills ≠ [] then
    "Applies " ++ primary_domain ++ " concepts in " ++ course_domain
      ++ " context (shared: " ++ String.intercalate ", " (shared_skills.take 3) ++ ")"
  else if 4/5 < similarity then
    "Highly relevant " ++ course_domain ++ " perspective on similar topics"
  else if shared_skills ≠ [] then
    "Complementary " ++ course_domain ++ " skills ("
      ++ String.intercalate ", " (shared_skills.take 2) ++ ")"
  else
    "Related " ++ course_domain ++ " concepts with transferable knowledge"

/-- Python `max(set(core_domains), key=core_domains.count)` guarded by
`if core_domains else "Other"`. Python's set iteration order is
unspecified; first-occurrence order is taken as the canonical iteration
order, and no theorem below depends on which mode wins a tie. -/
def primaryDomain (core_domains : List String) : String :=
  match core_domains.dedup with
  | [] => "Other"
  | d :: ds => ds.foldl
      (fun best q => if core_domains.count best < core_domains.count q then q else best) d

/-- The union of the core courses' skills, lowercased, as a set
(`core_skills` in the source). -/
def coreSkillsOf (core_courses : List Course) : List String :=
  normSkills (core_courses.map Course.skills).flatten

/-- The candidate record built inside the loop of
`get_cross_domain_courses`. -/
def mkCandidate (primary_domain : String) (core_skills : List String)
    (course : Course) : CrossDomainRec :=
  { course := course.name
    id := course.id
    url := course.url
    domain := inferDomain course
    rating := course.rating
    difficulty := course.difficulty
    similarity_score := course.similarity_score.getD 0
    skill_overlap := calculate_skill_overlap core_skills course.skills
    reason := generate_explanation (inferDomain course) primary_domain
      (course.similarity_score.getD 0)
      (calculate_skill_overlap core_skills course.skills)
      course.skills core_skills }

/-- The loop of `get_cross_domain_courses`: skip candidates whose id is
among the core ids, skip candidates in the primary domain, keep a
candidate iff it passes the similarity or the skill-overlap threshold. -/
def crossDomainCandidates (core_courses : List Course)
    (all_search_results : List Course)
    (min_similarity min_skill_overlap : ℚ)
    (primary_domain : String) (core_skills : List String) : List CrossDomainRec :=
  all_search_results.filterMap (fun course =>
    if (core_courses.map Course.id).contains course.id then none
    else if inferDomain course = primary_domain then none
    else if min_similarity ≤ course.similarity_score.getD 0
        ∨ min_skill_overlap ≤ calculate_skill_overlap core_skills course.skills then
      some (mkCandidate primary_domain core_skills course)
    else none)

/-- The sort key of `get_cross_domain_courses`. -/
def combinedScore (x : CrossDomainRec) : ℚ :=
  x.similarity_score + x.skill_overlap

/-- Embedding of `CrossDomainService.get_cross_domain_courses`: guard,
primary-domain computation, candidate filtering, stable sort by combined
score descending, truncation to `limit`. -/
def get_cross_domain_courses (core_courses all_search_results : List Course)
    (limit : Nat) (min_similarity min_skill_overlap : ℚ) : List CrossDomainRec :=
  if core_courses = [] ∨ all_search_results = [] then []
  else
    ((crossDomainCandidates core_courses all_search_results
        min_similarity min_skill_overlap
        (primaryDomain (core_courses.map inferDomain))
        (coreSkillsOf core_courses)).mergeSort
      (fun a b => decide (combinedScore b ≤ combinedScore a))).take limit

theorem mkCandidate_id (pd : String) (cs : List String) (course : Course) :
    (mkCandidate pd cs course).id = course.id := rfl

theorem mkCandidate_domain (pd : String) (cs : List String) (course : Course) :
    (mkCandidate pd cs course).domain = inferDomain course := rfl

theorem mkCandidate_similarity (pd : String) (cs : List String) (course : Course) :
    (mkCandidate pd cs course).similarity_score = course.similarity_score.getD 0 := rfl

theorem mkCandidate_overlap (pd : String) (cs : List String) (course : Course) :
    (mkCandidate pd cs course).skill_overlap
      = calculate_skill_overlap cs course.skills := rfl

/-- C3 (amended): with an empty `core_courses` list,
`get_cross_domain_courses` returns the empty list immediately, whatever
`all_search_results` holds — candidate evaluation does not proceed. -/
theorem cross_domain_empty_core (all_search_results : List Course)
    (limit : Nat) (min_similarity min_skill_overlap : ℚ) :
    get_cross_domain_courses [] all_search_results
      limit min_similarity min_skill_overlap = [] := by
  unfold get_cross_domain_courses
  rw [if_pos (Or.inl rfl)]

/-- A candidate course used to refute C3: its text scores in the
Computer Science domain and its similarity score clears the 0.7
threshold. -/
def c3Candidate : Course :=
  { id := some "c1", name := some "python programming"
    skills := ["python"], similarity_score := some (9/10) }

/-- C3 counterexample: the claim states that with empty `core_courses`
and a qualifying candidate (inferred domain differs from `Other`,
similarity at least `min_similarity`) the candidate is included; the
code returns `[]` at its guard instead. -/
theorem cross_domain_empty_core_counterexample :
    get_cross_domain_courses [] [c3Candidate] 3 (7/10) (3/20) = []
    ∧ inferDomain c3Candidate ≠ "Other"
    ∧ (7/10 : ℚ) ≤ c3Candidate.similarity_score.getD 0 := by
  refine ⟨by unfold get_cross_domain_courses; rw [if_pos (Or.inl rfl)],
    by decide, ?_⟩
  show (7/10 : ℚ) ≤ 9/10
  norm_num

/-- C4: every element of the returned list is built from a course of
`all_search_results` whose id is not among the core ids, whose inferred
domain differs from the primary domain, and which passes the similarity
or skill-overlap threshold; the list is sorted by descending combined
score and has at most `limit` elements. -/
theorem cross_domain_sound (core_courses all_search_results : List Course)
    (limit : Nat) (min_similarity min_skill_overlap : ℚ) :
    (∀ x ∈ get_cross_domain_courses core_courses all_search_results
        limit min_similarity min_skill_overlap,
      x.id ∉ core_courses.map Course.id
      ∧ x.domain ≠ primaryDomain (core_courses.map inferDomain)
      ∧ (min_similarity ≤ x.similarity_score
          ∨ min_skill_overlap ≤ x.skill_overlap)
      ∧ ∃ course ∈ all_search_results,
          x = mkCandidate (primaryDomain (core_courses.map inferDomain))
                (coreSkillsOf core_courses) course)
    ∧ List.Sorted (fun a b => combinedScore b ≤ combinedScore a)
        (get_cross_domain_courses core_courses all_search_results
          limit min_similarity min_skill_overlap)
    ∧ (get_cross_domain_courses core_courses all_search_results
        limit min_similarity min_skill_overlap).length ≤ limit := by
  unfold get_cross_domain_courses
  split
  · exact ⟨fun x hx => absurd hx (List.not_mem_nil x), List.sorted_nil, by simp⟩
  · refine ⟨?_, ?_, ?_⟩
    · intro x hx
      have hx1 : x ∈ (crossDomainCandidates core_courses all_search_results
          min_similarity min_skill_overlap
          (primaryDomain (core_courses.map inferDomain))
          (coreSkillsOf core_courses)).mergeSort
            (fun a b => decide (combinedScore b ≤ combinedScore a)) :=
        (List.take_sublist _ _).mem hx
      have hx2 := List.mem_mergeSort.mp hx1
      obtain ⟨course, hcm, hcx⟩ := List.mem_filterMap.mp hx2
      split at hcx
      · exact absurd hcx (by simp)
      · split at hcx
        · exact absurd hcx (by simp)
        · split at hcx
          · rename_i hid hdom hkeep
            have hx3 : x = mkCandidate (primaryDomain (core_courses.map inferDomain))
                (coreSkillsOf core_courses) course := by
              exact (Option.some_inj.mp hcx).symm
            subst hx3
            refine ⟨?_, ?_, ?_, course, hcm, rfl⟩
            · rw [mkCandidate_id]
              simpa using hid
            · rw [mkCandidate_domain]
              exact hdom
            · rw [mkCandidate_similarity, mkCandidate_overlap]
              exact hkeep
          · exact absurd hcx (by simp)
    · have hs := @List.sorted_mergeSort CrossDomainRec
        (fun a b => decide (combinedScore b ≤ combinedScore a))
        (fun a b c hab hbc => by
          simp only [decide_eq_true_eq] at *
          exact le_trans hbc hab)
        (fun a b => by
          simp only [Bool.or_eq_true, decide_eq_true_eq]
          exact le_total (combinedScore b) (combinedScore a))
        (crossDomainCandidates core_courses all_search_results
          min_similarity min_skill_overlap
          (primaryDomain (core_courses.map inferDomain))
          (coreSkillsOf core_courses))
      have := List.Pairwise.sublist (List.take_sublist limit _) hs
      exact this.imp (fun h => by simpa using h)
    · rw [List.length_take]
      omega

/-! ## Learning-path bucketing: `build_learning_path`
(learning_path_service.py) -/

/-- The `DIFFICULTY_ORDER` class attribute. -/
def DIFFICULTY_ORDER : List (String × Nat) :=
  [("Beginner", 1), ("Intermediate", 2), ("Advanced", 3), ("Conversant", 2)]

/-- The `DIFFICULTY_LABELS` class attribute. -/
def DIFFICULTY_LABELS : List (Nat × String) :=
  [(1, "beginner"), (2, "intermediate"), (3, "advanced")]

/-- The bucket label `build_learning_path` computes for one course:
`difficulty = course.get('difficulty', 'Intermediate')`, then
`DIFFICULTY_ORDER.get(difficulty, 2)`, then
`DIFFICULTY_LABELS.get(order, "intermediate")`. -/
def bucketLabel (difficulty : Option String) : String :=
  (DIFFICULTY_LABELS.lookup
    ((DIFFICULTY_ORDER.lookup (difficulty.getD "Intermediate")).getD 2)).getD
    "intermediate"

/-- The `grouped` dictionary of `build_learning_path`. -/
structure LearningPath where
  beginner : List Course
  intermediate : List Course
  advanced : List Course
deriving DecidableEq

/-- One iteration of the grouping loop: `grouped[label].append(course)`.
`bucketLabel` only produces the three labels (`bucketLabel_cases`), so
the final else branch is exactly the `"intermediate"` case. -/
def addCourse (g : LearningPath) (c : Course) : LearningPath :=
  if bucketLabel c.difficulty = "beginner" then
    { g with beginner := g.beginner ++ [c] }
  else if bucketLabel c.difficulty = "advanced" then
    { g with advanced := g.advanced ++ [c] }
  else
    { g with intermediate := g.intermediate ++ [c] }

/-- Embedding of `LearningPathService.build_learning_path`. -/
def build_learning_path (search_results : List Course) : LearningPath :=
  search_results.foldl addCourse ⟨[], [], []⟩

theorem bucketLabel_unrecognized (d : String)
    (h : d ∉ ["Beginner", "Intermediate", "Advanced", "Conversant"]) :
    bucketLabel (some d) = "intermediate" := by
  simp only [List.mem_cons, not_or] at h
  obtain ⟨h1, h2, h3, h4, -⟩ := h
  have b1 : (d == "Beginner") = false := by simp [h1]
  have b2 : (d == "Intermediate") = false := by simp [h2]
  have b3 : (d == "Advanced") = false := by simp [h3]
  have b4 : (d == "Conversant") = false := by simp [h4]
  unfold bucketLabel
  simp [List.lookup, DIFFICULTY_ORDER, DIFFICULTY_LABELS, b1, b2, b3, b4]

theorem bucketLabel_cases (d : Option String) :
    bucketLabel d = "beginner" ∨ bucketLabel d = "intermediate"
      ∨ bucketLabel d = "advanced" := by
  rcases d with _ | s
  · right; left; rfl
  · by_cases h1 : s = "Beginner"
    · subst h1; left; rfl
    by_cases h2 : s = "Intermediate"
    · subst h2; right; left; rfl
    by_cases h3 : s = "Advanced"
    · subst h3; right; right; rfl
    by_cases h4 : s = "Conversant"
    · subst h4; right; left; rfl
    · right; left
      exact bucketLabel_unrecognized s (by simp [h1, h2, h3, h4])

theorem foldl_addCourse_spec (l : List Course) : ∀ (g : LearningPath),
    (l.foldl addCourse g).beginner
      = g.beginner ++ l.filter (fun c => bucketLabel c.difficulty == "beginner")
    ∧ (l.foldl addCourse g).intermediate
      = g.intermediate ++ l.filter (fun c => bucketLabel c.difficulty == "intermediate")
    ∧ (l.foldl addCourse g).advanced
      = g.advanced ++ l.filter (fun c => bucketLabel c.difficulty == "advanced") := by
  induction l with
  | nil => intro g; simp
  | cons c l ih =>
    intro g
    rw [List.foldl_cons, List.filter_cons, List.filter_cons, List.filter_cons]
    rcases bucketLabel_cases c.difficulty with hb | hi | ha
    · have hadd : addCourse g c = { g with beginner := g.beginner ++ [c] } := by
        unfold addCourse
        rw [if_pos hb]
      rw [hadd, if_pos (by simp [hb]), if_neg (by simp [hb]), if_neg (by simp [hb])]
      obtain ⟨e1, e2, e3⟩ := ih { g with beginner := g.beginner ++ [c] }
      exact ⟨by rw [e1]; simp, e2, e3⟩
    · have hadd : addCourse g c = { g with intermediate := g.intermediate ++ [c] } := by
        unfold addCourse
        rw [if_neg (by simp [hi]), if_neg (by simp [hi])]
      rw [hadd, if_neg (by simp [hi]), if_pos (by simp [hi]), if_neg (by simp [hi])]
      obtain ⟨e1, e2, e3⟩ := ih { g with intermediate := g.intermediate ++ [c] }
      exact ⟨e1, by rw [e2]; simp, e3⟩
    · have hadd : addCourse g c = { g with advanced := g.advanced ++ [c] } := by
        unfold addCourse
        rw [if_neg (by simp [ha]), if_pos ha]
      rw [hadd, if_neg (by simp [ha]), if_neg (by simp [ha]), if_pos (by simp [ha])]
      obtain ⟨e1, e2, e3⟩ := ih { g with advanced := g.advanced ++ [c] }
      exact ⟨e1, e2, by rw [e3]; simp⟩

/-- C5: `build_learning_path` places each search result into exactly the
bucket of the difficulty table — Beginner to `beginner`; Intermediate and
Conversant to `intermediate`; Advanced to `advanced`; unrecognized or
missing difficulty to `intermediate` — and each bucket is the
order-preserving filter of the input (no re-ranking). -/
theorem build_learning_path_buckets (search_results : List Course) :
    (build_learning_path search_results).beginner
      = search_results.filter (fun c => bucketLabel c.difficulty == "beginner")
    ∧ (build_learning_path search_results).intermediate
      = search_results.filter (fun c => bucketLabel c.difficulty == "intermediate")
    ∧ (build_learning_path search_results).advanced
      = search_results.filter (fun c => bucketLabel c.difficulty == "advanced")
    ∧ bucketLabel (some "Beginner") = "beginner"
    ∧ bucketLabel (some "Intermediate") = "intermediate"
    ∧ bucketLabel (some "Conversant") = "intermediate"
    ∧ bucketLabel (some "Advanced") = "advanced"
    ∧ bucketLabel none = "intermediate"
    ∧ (∀ d : String, d ∉ ["Beginner", "Intermediate", "Advanced", "Conversant"] →
        bucketLabel (some d) = "intermediate") := by
  obtain ⟨e1, e2, e3⟩ := foldl_addCourse_spec search_results ⟨[], [], []⟩
  exact ⟨by simpa using e1, by simpa using e2, by simpa using e3,
    rfl, rfl, rfl, rfl, rfl, bucketLabel_unrecognized⟩

/-! ## Learner profile service (learner_profile_service.py) -/

/-- The student dictionary: the keys `engineer_features` and
`analyze_student` read. `none` models an absent key. -/
structure StudentData where
  student_id : Option String := none
  total_clicks : Option ℚ := none
  active_days : Option ℚ := none
  avg_clicks_per_day : Option ℚ := none
  clicks_last_week : Option ℚ := none
  avg_assessment_score : Option ℚ := none
  assessments_completed : Option ℚ := none
  late_submissions : Option ℚ := none
  assessment_pass_rate : Option ℚ := none
  age_band : Option String := none
  gender : Option String := none
  disability : Option String := none
  highest_education : Option String := none
  region : Option String := none
  imd_band : Option String := none
  num_prev_attempts : Option ℚ := none
  studied_credits : Option ℚ := none
  days_since_registration : Option ℚ := none
  engagement_trend : Option ℚ := none
  weekend_activity_ratio : Option ℚ := none
  evening_activity_ratio : Option ℚ := none
  days_inactive : Option ℚ := none
  engagement_consistency : Option ℚ := none
  content_views : Option ℚ := none
  resource_downloads : Option ℚ := none
  forum_posts : Option ℚ := none
  quiz_attempts : Option ℚ := none
deriving DecidableEq

/-- The engineered feature row (the one-row DataFrame built by
`engineer_features`). -/
structure StudentFeatures where
  total_clicks : ℚ
  active_days : ℚ
  avg_clicks_per_day : ℚ
  clicks_last_week : ℚ
  clicks_per_active_day : ℚ
  avg_assessment_score : ℚ
  assessments_completed : ℚ
  late_submissions : ℚ
  assessment_pass_rate : ℚ
  age_band : String
  gender : String
  disability : String
  highest_education : String
  region : String
  imd_band : String
  num_prev_attempts : ℚ
  studied_credits : ℚ
  days_since_registration : ℚ
  engagement_trend : ℚ
  weekend_activity_ratio : ℚ
  evening_activity_ratio : ℚ
  days_inactive : ℚ
  engagement_consistency : ℚ
  content_views : ℚ
  resource_downloads : ℚ
  forum_posts : ℚ
  quiz_attempts : ℚ
deriving DecidableEq

/-- Embedding of `LearnerProfileService.engineer_features`: every field
is `student_data.get(key, default)`, and `clicks_per_active_day` is
`total_clicks / active_days` guarded by `active_days > 0`. -/
def engineer_features (student_data : StudentData) : StudentFeatures :=
  { total_clicks := student_data.total_clicks.getD 0
    active_days := student_data.active_days.getD 0
    avg_clicks_per_day := student_data.avg_clicks_per_day.getD 0
    clicks_last_week := student_data.clicks_last_week.getD 0
    clicks_per_active_day :=
      if 0 < student_data.active_days.getD 0 then
        student_data.total_clicks.getD 0 / student_data.active_days.getD 0
      else 0
    avg_assessment_score := student_data.avg_assessment_score.getD 0
    assessments_completed := student_data.assessments_completed.getD 0
    late_submissions := student_data.late_submissions.getD 0
    assessment_pass_rate := student_data.assessment_pass_rate.getD 0
    age_band := student_data.age_band.getD "0-35"
    gender := student_data.gender.getD "M"
    disability := student_data.disability.getD "N"
    highest_education := student_data.highest_education.getD "A Level or Equivalent"
    region := student_data.region.getD "Unknown"
    imd_band := student_data.imd_band.getD "50-75%"
    num_prev_attempts := student_data.num_prev_attempts.getD 0
    studied_credits := student_data.studied_credits.getD 0
    days_since_registration := student_data.days_since_registration.getD 0
    engagement_trend := student_data.engagement_trend.getD 0
    weekend_activity_ratio := student_data.weekend_activity_ratio.getD 0
    evening_activity_ratio := student_data.evening_activity_ratio.getD 0
    days_inactive := student_data.days_inactive.getD 0
    engagement_consistency := student_data.engagement_consistency.getD 0
    content_views := student_data.content_views.getD 0
    resource_downloads := student_data.resource_downloads.getD 0
    forum_posts := student_data.forum_posts.getD 0
    quiz_attempts := student_data.quiz_attempts.getD 0 }

/-- Embedding of `LearnerProfileService._calculate_risk_level`. -/
def calculate_risk_level (outcome : String) (confidence : ℚ) : String :=
  if outcome = "Fail" ∨ outcome = "Withdrawn" then
    if 3/4 < confidence then "Very High"
    else if 1/2 < confidence then "High"
    else "Moderate"
  else if outcome = "Pass" then
    if confidence < 2/5 then "Moderate" else "Low"
  else "Very Low"

/-- Python `risk_level in ['High', 'Very High']`. -/
def isAtRiskLevel (risk_level : String) : Bool :=
  ["High", "Very High"].contains risk_level

/-- A loaded sklearn model, as a black box over the feature row:
`predict` and `predict_proba` together yield a class index and a
probability list; `Except.error` models a raised exception. -/
def Classifier : Type :=
  StudentFeatures → Except String (Nat × List ℚ)

/-- The `PROFILE_TYPES` class attribute. -/
def PROFILE_TYPES : List (Nat × String) :=
  [(0, "Fast Learner"), (1, "Balanced"), (2, "Struggling"), (3, "Disengaged")]

/-- The `OUTCOME_TYPES` class attribute. -/
def OUTCOME_TYPES : List (Nat × String) :=
  [(0, "Pass"), (1, "Fail"), (2, "Distinction"), (3, "Withdrawn")]

/-- The dictionary `classify_profile` returns. A `none` field models a
key absent from the returned dictionary (the error dictionaries carry
only `profile`, `confidence`, `error`). `features_used` is omitted:
it is optional in the pydantic response model and read nowhere. -/
structure ProfileResult where
  profile : String
  profile_id : Option Nat := none
  confidence : ℚ
  all_probabilities : Option (List (String × ℚ)) := none
  error : Option String := none
deriving DecidableEq

/-- The dictionary `predict_outcome` returns; `none` models an absent
key. -/
structure OutcomeResult where
  outcome : String
  outcome_id : Option Nat := none
  confidence : ℚ
  risk_level : Option String := none
  all_probabilities : Option (List (String × ℚ)) := none
  is_at_risk : Option Bool := none
  error : Option String := none
deriving DecidableEq

/-- Embedding of `LearnerProfileService.classify_profile`. The guard on
the index and probability-list length models the `IndexError`/`KeyError`
a malformed classifier output raises, which the source catches into the
same error dictionary shape (the message text is not modelled). -/
def classify_profile (profile_classifier : Option Classifier)
    (student_data : StudentData) : ProfileResult :=
  match profile_classifier with
  | none =>
    { profile := "Unknown", confidence := 0,
      error := some "Profile classifier not loaded" }
  | some clf =>
    match clf (engineer_features student_data) with
    | .error e => { profile := "Unknown", confidence := 0, error := some e }
    | .ok (profile_id, probabilities) =>
      if profile_id < probabilities.length
          ∧ probabilities.length ≤ PROFILE_TYPES.length then
        { profile := (PROFILE_TYPES.lookup profile_id).getD "Unknown"
          profile_id := some profile_id
          confidence := probabilities.getD profile_id 0
          all_probabilities := some (probabilities.enum.map
            (fun p => ((PROFILE_TYPES.lookup p.1).getD "Unknown", p.2)))
          error := none }
      else { profile := "Unknown", confidence := 0, error := some "exception" }

/-- Embedding of `LearnerProfileService.predict_outcome`, including the
derived `risk_level` and `is_at_risk` fields. -/
def predict_outcome (outcome_predictor : Option Classifier)
    (student_data : StudentData) : OutcomeResult :=
  match outcome_predictor with
  | none =>
    { outcome := "Unknown", confidence := 0,
      error := some "Outcome predictor not loaded" }
  | some clf =>
    match clf (engineer_features student_data) with
    | .error e => { outcome := "Unknown", confidence := 0, error := some e }
    | .ok (outcome_id, probabilities) =>
      if outcome_id < probabilities.length
          ∧ probabilities.length ≤ OUTCOME_TYPES.length then
        { outcome := (OUTCOME_TYPES.lookup outcome_id).getD "Unknown"
          outcome_id := some outcome_id
          confidence := probabilities.getD outcome_id 0
          risk_level := some (calculate_risk_level
            ((OUTCOME_TYPES.lookup outcome_id).getD "Unknown")
            (probabilities.getD outcome_id 0))
          all_probabilities := some (probabilities.enum.map
            (fun p => ((OUTCOME_TYPES.lookup p.1).getD "Unknown", p.2)))
          is_at_risk := some (isAtRiskLevel (calculate_risk_level
            ((OUTCOME_TYPES.lookup outcome_id).getD "Unknown")
            (probabilities.getD outcome_id 0)))
          error := none }
      else { outcome := "Unknown", confidence := 0, error := some "exception" }

/-- Embedding of `LearnerProfileService.get_student_embedding`: `None`
when the pipeline is absent or raises (the source catches and logs). -/
def get_student_embedding
    (embedding_pipeline : Option (StudentFeatures → Except String (List ℚ)))
    (student_data : StudentData) : Option (List ℚ) :=
  match embedding_pipeline with
  | none => none
  | some pipe =>
    match pipe (engineer_features student_data) with
    | .error _ => none
    | .ok v => some v

/-- One entry of `_generate_recommendations`. -/
structure Recommendation where
  type : String
  message : String
  priority : String
deriving DecidableEq

/-- Embedding of `LearnerProfileService._generate_recommendations`:
profile-keyed entries, then risk-keyed entries, then outcome-keyed
entries, in source order. The arguments are `Option`s because the source
reads them with one-argument `dict.get` (absent key gives `None`). -/
def generate_recommendations (profile : Option String)
    (outcome : Option String) (risk_level : Option String) :
    List Recommendation :=
  (if profile = some "Fast Learner" then
    [⟨"course_difficulty",
      "Consider enrolling in Advanced level courses to challenge yourself",
      "low"⟩]
  else if profile = some "Struggling" then
    [⟨"support", "Beginner courses recommended with additional tutorial support",
      "high"⟩,
     ⟨"engagement", "Set daily learning goals to improve engagement", "high"⟩]
  else if profile = some "Disengaged" then
    [⟨"intervention", "Immediate intervention needed - contact student advisor",
      "critical"⟩,
     ⟨"engagement",
      "Interactive and project-based courses may improve engagement", "high"⟩]
  else [])
  ++ (if risk_level = some "High" ∨ risk_level = some "Very High" then
    [⟨"early_warning", "Student is at high risk - schedule check-in meeting",
      "critical"⟩,
     ⟨"course_load",
      "Consider reducing course load or providing additional support", "high"⟩]
  else [])
  ++ (if outcome = some "Withdrawn" then
    [⟨"retention", "High withdrawal risk - engage with retention team",
      "critical"⟩]
  else [])

/-- The per-student analysis dictionary `analyze_student` builds.
`analysis_timestamp` is omitted: wall-clock time is outside the
embedding. -/
structure StudentAnalysis where
  student_id : String
  profile : ProfileResult
  outcome : OutcomeResult
  embedding : Option (List ℚ)
  recommendations : List Recommendation
deriving DecidableEq

/-- Embedding of `LearnerProfileService.analyze_student`: the three
collaborators are explicit arguments (the service object's loaded
models). -/
def analyze_student (profile_classifier outcome_predictor : Option Classifier)
    (embedding_pipeline : Option (StudentFeatures → Except String (List ℚ)))
    (student_data : StudentData) : StudentAnalysis :=
  { student_id := student_data.student_id.getD "unknown"
    profile := classify_profile profile_classifier student_data
    outcome := predict_outcome outcome_predictor student_data
    embedding := get_student_embedding embedding_pipeline student_data
    recommendations := generate_recommendations
      (some (classify_profile profile_classifier student_data).profile)
      (some (predict_outcome outcome_predictor student_data).outcome)
      (predict_outcome outcome_predictor student_data).risk_level }

/-- The pydantic validation `StudentAnalysis(**analysis)` performs per
loop iteration in `batch_analyze_students` (learner_models.py):
`ProfileClassification` requires `profile_id` and `all_probabilities`;
`OutcomePrediction` requires `outcome_id`, `risk_level`, `is_at_risk`
and `all_probabilities`. A missing key fails validation. -/
def validate_student_analysis (a : StudentAnalysis) : Bool :=
  a.profile.profile_id.isSome && a.profile.all_probabilities.isSome
    && a.outcome.outcome_id.isSome && a.outcome.risk_level.isSome
    && a.outcome.is_at_risk.isSome && a.outcome.all_probabilities.isSome

/-- Embedding of the loop of `batch_analyze_students` (backend/main.py):
students are processed in order inside one `try` that wraps the whole
loop, so the first `StudentAnalysis(**analysis)` validation failure
raises, discards every accumulated result and surfaces as one HTTP 500
(`Except.error`). -/
def batch_analyze_students
    (profile_classifier outcome_predictor : Option Classifier)
    (embedding_pipeline : Option (StudentFeatures → Except String (List ℚ))) :
    List StudentData → Except String (List StudentAnalysis)
  | [] => .ok []
  | s :: rest =>
    let a := analyze_student profile_classifier outcome_predictor
      embedding_pipeline s
    if validate_student_analysis a then
      match batch_analyze_students profile_classifier outcome_predictor
          embedding_pipeline rest with
      | .ok results => .ok (a :: results)
      | .error e => .error e
    else .error "ValidationError"

/-- C1: `_calculate_risk_level` follows the spec's table: for `Fail` or
`Withdrawn`, confidence above 0.75 gives `Very High`, in (0.5, 0.75]
gives `High`, at most 0.5 gives `Moderate`; for `Pass`, confidence below
0.4 gives `Moderate`, at least 0.4 gives `Low`; `Distinction` always
gives `Very Low`. -/
theorem risk_level_table (conf : ℚ) :
    (3/4 < conf → calculate_risk_level "Fail" conf = "Very High"
      ∧ calculate_risk_level "Withdrawn" conf = "Very High")
    ∧ (1/2 < conf → conf ≤ 3/4 → calculate_risk_level "Fail" conf = "High"
      ∧ calculate_risk_level "Withdrawn" conf = "High")
    ∧ (conf ≤ 1/2 → calculate_risk_level "Fail" conf = "Moderate"
      ∧ calculate_risk_level "Withdrawn" conf = "Moderate")
    ∧ (conf < 2/5 → calculate_risk_level "Pass" conf = "Moderate")
    ∧ (2/5 ≤ conf → calculate_risk_level "Pass" conf = "Low")
    ∧ calculate_risk_level "Distinction" conf = "Very Low" := by
  unfold calculate_risk_level
  refine ⟨fun h => ?_, fun h1 h2 => ?_, fun h => ?_, fun h => ?_, fun h => ?_, ?_⟩
  · constructor <;> rw [if_pos (by decide), if_pos h]
  · constructor <;> rw [if_pos (by decide), if_neg (by linarith), if_pos h1]
  · constructor <;> rw [if_pos (by decide), if_neg (by linarith), if_neg (by linarith)]
  · rw [if_neg (by decide), if_pos rfl, if_pos h]
  · rw [if_neg (by decide), if_pos rfl, if_neg (by linarith)]
  · rw [if_neg (by decide), if_neg (by decide)]

/-- Witness for C1 at the spec's example confidences. -/
theorem risk_level_table_witness :
    calculate_risk_level "Fail" (4/5) = "Very High"
    ∧ calculate_risk_level "Fail" (3/5) = "High"
    ∧ calculate_risk_level "Fail" (3/10) = "Moderate"
    ∧ calculate_risk_level "Pass" (3/10) = "Moderate"
    ∧ calculate_risk_level "Pass" (1/2) = "Low"
    ∧ calculate_risk_level "Distinction" (1/10) = "Very Low" :=
  ⟨((risk_level_table (4/5)).1 (by norm_num)).1,
   ((risk_level_table (3/5)).2.1 (by norm_num) (by norm_num)).1,
   ((risk_level_table (3/10)).2.2.1 (by norm_num)).1,
   (risk_level_table (3/10)).2.2.2.1 (by norm_num),
   (risk_level_table (1/2)).2.2.2.2.1 (by norm_num),
   (risk_level_table (1/10)).2.2.2.2.2⟩

/-- C10 counterexample: the claim concludes that a learner whose
outcome could not be predicted is reported with risk level `Very Low`
and `is_at_risk` false. When the outcome predictor is unavailable, and
likewise when it raises, `predict_outcome` returns early with the
`Unknown`-labelled error dictionary, which carries no `risk_level` and
no `is_at_risk` key at all — in particular its risk level is not
`Very Low` and its `is_at_risk` is not false. -/
theorem risk_level_unknown_outcome_counterexample :
    (predict_outcome none {}).outcome = "Unknown"
    ∧ (predict_outcome none {}).risk_level = none
    ∧ (predict_outcome none {}).risk_level ≠ some "Very Low"
    ∧ (predict_outcome none {}).is_at_risk = none
    ∧ (predict_outcome none {}).is_at_risk ≠ some false
    ∧ (predict_outcome (some (fun _ => Except.error "boom")) {}).outcome
        = "Unknown"
    ∧ (predict_outcome (some (fun _ => Except.error "boom")) {}).risk_level
        = none
    ∧ (predict_outcome (some (fun _ => Except.error "boom")) {}).is_at_risk
        = none :=
  ⟨rfl, rfl, by decide, rfl, by decide, rfl, rfl, rfl⟩

/-- C10 (amended): for any outcome label other than `Fail`, `Withdrawn`
and `Pass` — including `Unknown` — `_calculate_risk_level` returns
`Very Low` at every confidence, and `Very Low` is not an at-risk level;
but `_calculate_risk_level` is never reached when the outcome could not
be predicted: `predict_outcome`'s unavailable and error results carry
no `risk_level` and no `is_at_risk` key at all, so such a learner is
reported with no risk level rather than with `Very Low`. -/
theorem risk_level_unknown_outcome (outcome : String) (conf : ℚ)
    (h1 : outcome ≠ "Fail") (h2 : outcome ≠ "Withdrawn")
    (h3 : outcome ≠ "Pass") :
    calculate_risk_level outcome conf = "Very Low"
    ∧ isAtRiskLevel (calculate_risk_level outcome conf) = false
    ∧ (∀ d : StudentData,
        (predict_outcome none d).outcome = "Unknown"
        ∧ (predict_outcome none d).risk_level = none
        ∧ (predict_outcome none d).is_at_risk = none)
    ∧ (∀ (d : StudentData) (e : String),
        (predict_outcome (some (fun _ => Except.error e)) d).outcome
          = "Unknown"
        ∧ (predict_outcome (some (fun _ => Except.error e)) d).risk_level
          = none
        ∧ (predict_outcome (some (fun _ => Except.error e)) d).is_at_risk
          = none) := by
  have h : calculate_risk_level outcome conf = "Very Low" := by
    unfold calculate_risk_level
    rw [if_neg (by simp [h1, h2]), if_neg h3]
  rw [h]
  exact ⟨rfl, rfl, fun d => ⟨rfl, rfl, rfl⟩, fun d e => ⟨rfl, rfl, rfl⟩⟩

/-- Witness for C10 at the `Unknown` label and a concrete student. -/
theorem risk_level_unknown_outcome_witness :
    calculate_risk_level "Unknown" (9/10) = "Very Low"
    ∧ isAtRiskLevel (calculate_risk_level "Unknown" (9/10)) = false
    ∧ (predict_outcome none {}).risk_level = none := by
  obtain ⟨w1, w2, w3, -⟩ := risk_level_unknown_outcome "Unknown" (9/10)
    (by decide) (by decide) (by decide)
  exact ⟨w1, w2, (w3 {}).2.1⟩

/-- C8: with no loaded model, `classify_profile` and `predict_outcome`
do not raise: each returns the `Unknown` label, confidence 0 and an
explanatory error message. -/
theorem classifier_unavailable_defaults (student_data : StudentData) :
    classify_profile none student_data
      = { profile := "Unknown", confidence := 0,
          error := some "Profile classifier not loaded" }
    ∧ predict_outcome none student_data
      = { outcome := "Unknown", confidence := 0,
          error := some "Outcome predictor not loaded" } :=
  ⟨rfl, rfl⟩

/-- C9: `engineer_features` is total on every input dictionary; every
named feature absent from the input (a `none` field) is filled with its
documented default; `clicks_per_active_day` is the guarded quotient; and
on the empty dictionary every field takes its documented default with
`clicks_per_active_day = 0`. -/
theorem engineer_features_total_defaults (d : StudentData) :
    (d.total_clicks = none → (engineer_features d).total_clicks = 0)
    ∧ (d.active_days = none → (engineer_features d).active_days = 0)
    ∧ (d.avg_clicks_per_day = none →
        (engineer_features d).avg_clicks_per_day = 0)
    ∧ (d.clicks_last_week = none → (engineer_features d).clicks_last_week = 0)
    ∧ (d.avg_assessment_score = none →
        (engineer_features d).avg_assessment_score = 0)
    ∧ (d.assessments_completed = none →
        (engineer_features d).assessments_completed = 0)
    ∧ (d.late_submissions = none → (engineer_features d).late_submissions = 0)
    ∧ (d.assessment_pass_rate = none →
        (engineer_features d).assessment_pass_rate = 0)
    ∧ (d.age_band = none → (engineer_features d).age_band = "0-35")
    ∧ (d.gender = none → (engineer_features d).gender = "M")
    ∧ (d.disability = none → (engineer_features d).disability = "N")
    ∧ (d.highest_education = none →
        (engineer_features d).highest_education = "A Level or Equivalent")
    ∧ (d.region = none → (engineer_features d).region = "Unknown")
    ∧ (d.imd_band = none → (engineer_features d).imd_band = "50-75%")
    ∧ (d.num_prev_attempts = none →
        (engineer_features d).num_prev_attempts = 0)
    ∧ (d.studied_credits = none → (engineer_features d).studied_credits = 0)
    ∧ (d.days_since_registration = none →
        (engineer_features d).days_since_registration = 0)
    ∧ (d.engagement_trend = none → (engineer_features d).engagement_trend = 0)
    ∧ (d.weekend_activity_ratio = none →
        (engineer_features d).weekend_activity_ratio = 0)
    ∧ (d.evening_activity_ratio = none →
        (engineer_features d).evening_activity_ratio = 0)
    ∧ (d.days_inactive = none → (engineer_features d).days_inactive = 0)
    ∧ (d.engagement_consistency = none →
        (engineer_features d).engagement_consistency = 0)
    ∧ (d.content_views = none → (engineer_features d).content_views = 0)
    ∧ (d.resource_downloads = none →
        (engineer_features d).resource_downloads = 0)
    ∧ (d.forum_posts = none → (engineer_features d).forum_posts = 0)
    ∧ (d.quiz_attempts = none → (engineer_features d).quiz_attempts = 0)
    ∧ (0 < d.active_days.getD 0 →
        (engineer_features d).clicks_per_active_day
          = d.total_clicks.getD 0 / d.active_days.getD 0)
    ∧ (¬ 0 < d.active_days.getD 0 →
        (engineer_features d).clicks_per_active_day = 0)
    ∧ engineer_features {} =
      { total_clicks := 0, active_days := 0, avg_clicks_per_day := 0,
        clicks_last_week := 0, clicks_per_active_day := 0,
        avg_assessment_score := 0, assessments_completed := 0,
        late_submissions := 0, assessment_pass_rate := 0,
        age_band := "0-35", gender := "M", disability := "N",
        highest_education := "A Level or Equivalent", region := "Unknown",
        imd_band := "50-75%", num_prev_attempts := 0, studied_credits := 0,
        days_since_registration := 0, engagement_trend := 0,
        weekend_activity_ratio := 0, evening_activity_ratio := 0,
        days_inactive := 0, engagement_consistency := 0, content_views := 0,
        resource_downloads := 0, forum_posts := 0, quiz_attempts := 0 } := by
  refine ⟨?_, ?_, ?_, ?_, ?_, ?_, ?_, ?_, ?_, ?_, ?_, ?_, ?_, ?_, ?_, ?_, ?_,
    ?_, ?_, ?_, ?_, ?_, ?_, ?_, ?_, ?_, ?_, ?_, rfl⟩ <;>
    (intro h; simp [engineer_features, h])

/-- Witness for C9: a dictionary holding only 5 clicks over 2 active
days leaves every other feature at its default and divides the clicks
by the active days. -/
theorem engineer_features_total_defaults_witness :
    (engineer_features
      { active_days := some 2, total_clicks := some 5 }).age_band = "0-35"
    ∧ (engineer_features
      { active_days := some 2, total_clicks := some 5 }).gender = "M"
    ∧ (engineer_features
      { active_days := some 2, total_clicks := some 5 }).forum_posts = 0
    ∧ (engineer_features
        { active_days := some 2, total_clicks := some 5 }).clicks_per_active_day
      = ({ active_days := some 2, total_clicks := some 5 } :
          StudentData).total_clicks.getD 0
        / ({ active_days := some 2, total_clicks := some 5 } :
          StudentData).active_days.getD 0 := by
  obtain ⟨-, -, -, -, -, -, -, -, w9, w10, -, -, -, -, -, -, -, -, -, -, -,
      -, -, -, w25, -, w27, -, -⟩ :=
    engineer_features_total_defaults
      { active_days := some 2, total_clicks := some 5 }
  exact ⟨w9 rfl, w10 rfl, w25 rfl, w27 (by norm_num [Option.getD_some])⟩

/-- The classifier of the C7 scenario: it raises exactly on the feature
row of a student with one total click, and classifies every other
student as profile 0 with certainty. -/
def c7Classifier : Classifier := fun feats =>
  if feats.total_clicks = 1 then .error "boom" else .ok (0, [1, 0, 0, 0])

/-- The outcome predictor of the C7 scenario: always predicts outcome 0
with certainty. -/
def c7Predictor : Classifier := fun _ => .ok (0, [1, 0, 0, 0])

/-- First student of the C7 batch: the classifier raises on it. -/
def c7Student1 : StudentData := { total_clicks := some 1 }

/-- Second student of the C7 batch: analysed without error. -/
def c7Student2 : StudentData := {}

/-- C7 evaluated at the failing input: `classify_profile` catches the
classifier error and records it in student 1's own result, and student
2 alone would be analysed and validated successfully — but the batch
endpoint, which constructs `StudentAnalysis(**analysis)` inside one
`try` around the whole loop, fails validation on student 1's error
result (required `profile_id`/`all_probabilities` keys are absent) and
aborts the entire batch, returning no sibling results. -/
theorem batch_aborts_on_single_failure :
    batch_analyze_students (some c7Classifier) (some c7Predictor) none
        [c7Student1, c7Student2] = .error "ValidationError"
    ∧ (analyze_student (some c7Classifier) (some c7Predictor) none
        c7Student1).profile.error = some "boom"
    ∧ validate_student_analysis (analyze_student (some c7Classifier)
        (some c7Predictor) none c7Student2) = true
    ∧ batch_analyze_students (some c7Classifier) (some c7Predictor) none
        [c7Student2] = .ok [analyze_student (some c7Classifier)
          (some c7Predictor) none c7Student2] := by
  refine ⟨?_, rfl, rfl, rfl⟩
  rfl

/-- A sample course used by witnesses. -/
def sampleCourse : Course :=
  { name := some "intro to marketing and finance" }

/-- Witness for C2 at a concrete course (two Business keywords). -/
theorem infer_domain_first_max_witness :
    inferDomain sampleCourse = inferDomainSpec sampleCourse
    ∧ inferDomain sampleCourse = "Business" :=
  ⟨infer_domain_first_max sampleCourse, by decide⟩

/-- Witness for C3's amended claim at concrete arguments. -/
theorem cross_domain_empty_core_witness :
    get_cross_domain_courses [] [sampleCourse] 5 (1/2) (1/10) = [] :=
  cross_domain_empty_core [sampleCourse] 5 (1/2) (1/10)

/-- Witness for C4 at concrete arguments. -/
theorem cross_domain_sound_witness :
    (get_cross_domain_courses [sampleCourse] [c3Candidate] 3 (7/10)
      (3/20)).length ≤ 3 :=
  (cross_domain_sound [sampleCourse] [c3Candidate] 3 (7/10) (3/20)).2.2

/-- Witness for C5 at concrete difficulty labels. -/
theorem build_learning_path_buckets_witness :
    bucketLabel (some "Conversant") = "intermediate"
    ∧ bucketLabel (some "Beginner") = "beginner" :=
  ⟨(build_learning_path_buckets []).2.2.2.2.2.1,
   (build_learning_path_buckets []).2.2.2.1⟩

/-- Witness for C8 at the empty student dictionary. -/
theorem classifier_unavailable_defaults_witness :
    classify_profile none {}
      = { profile := "Unknown", confidence := 0,
          error := some "Profile classifier not loaded" } :=
  (classifier_unavailable_defaults {}).1
